import Mathlib

/-!
Verification of src/attention.rs: a single-head causal self-attention unit
(HeadConfig, Head) and a multi-head wrapper (MultiHeadAttentionConfig,
MultiHeadAttention) written against the burn tensor library.

Tensors are modelled as rank-3 arrays: a shape (b, r, c) together with a
total data function.  Floating-point arithmetic is idealised as real
arithmetic.  The tensor-library operations the source calls (linear layers,
the element-wise product with broadcasting that the binary star operator
performs in burn, transpose of the last two axes, mask_fill, softmax along
the last axis, concatenation along the last axis, tril with a diagonal
offset, equal_elem) are modelled after their burn semantics; an operation
that panics on a shape mismatch is modelled as returning none.
-/

noncomputable section

/-- Rank-3 tensor: shape (b, r, c) with a total data function. -/
structure Tensor3 (α : Type) where
  b : ℕ
  r : ℕ
  c : ℕ
  data : ℕ → ℕ → ℕ → α

/-- Broadcast of one axis length against another (the rule burn uses for
binary element-wise operations): the lengths must be equal or one of them
must be 1, and the result is the larger one. -/
def bcDim (m n : ℕ) : Option ℕ :=
  if m = n then some m
  else if m = 1 then some n
  else if n = 1 then some m
  else none

/-- Index adjustment when reading an axis of length d that may have been
broadcast: an axis of length 1 is always read at index 0. -/
def bIdx (d i : ℕ) : ℕ := if d = 1 then 0 else i

/-- Element-wise product with broadcasting.  This is what the binary star
operator on burn tensors computes (it is not a matrix product); if the
shapes are not broadcast-compatible the library panics, modelled as none. -/
def Tensor3.emul (x y : Tensor3 ℝ) : Option (Tensor3 ℝ) :=
  match bcDim x.b y.b, bcDim x.r y.r, bcDim x.c y.c with
  | some bb, some rr, some cc =>
    some ⟨bb, rr, cc, fun i j k =>
      x.data (bIdx x.b i) (bIdx x.r j) (bIdx x.c k) *
      y.data (bIdx y.b i) (bIdx y.r j) (bIdx y.c k)⟩
  | _, _, _ => none

/-- Transpose of the last two axes (Tensor::transpose on a rank-3 tensor). -/
def Tensor3.transpose2 (t : Tensor3 ℝ) : Tensor3 ℝ :=
  ⟨t.b, t.c, t.r, fun i j k => t.data i k j⟩

/-- Division of every element by a scalar. -/
def Tensor3.divScalar (t : Tensor3 ℝ) (v : ℝ) : Tensor3 ℝ :=
  ⟨t.b, t.r, t.c, fun i j k => t.data i j k / v⟩

/-- Tensor::mask_fill: overwrite with v at every position where the boolean
mask holds.  The mask must be broadcastable to the tensor's shape, else the
library panics (none). -/
def Tensor3.maskFill (t : Tensor3 ℝ) (m : Tensor3 Bool) (v : ℝ) :
    Option (Tensor3 ℝ) :=
  if (m.b = t.b ∨ m.b = 1) ∧ (m.r = t.r ∨ m.r = 1) ∧ (m.c = t.c ∨ m.c = 1) then
    some ⟨t.b, t.r, t.c, fun i j k =>
      if m.data (bIdx m.b i) (bIdx m.r j) (bIdx m.c k) then v
      else t.data i j k⟩
  else none

/-- activation::softmax along axis 2 (the last axis): exponentiate and
normalise each row by its sum. -/
def softmax2 (t : Tensor3 ℝ) : Tensor3 ℝ :=
  ⟨t.b, t.r, t.c, fun i j k =>
    Real.exp (t.data i j k) / ∑ k2 ∈ Finset.range t.c, Real.exp (t.data i j k2)⟩

/-- Batched matrix product along the last two axes.  This is the operation
the specification (and the source's own shape comments, written with the at
sign) describe for the attention scores; the source itself does not call
it. -/
def Tensor3.matmul3 (x y : Tensor3 ℝ) : Option (Tensor3 ℝ) :=
  if x.b = y.b ∧ x.c = y.r then
    some ⟨x.b, x.r, y.c, fun i j k =>
      ∑ t ∈ Finset.range x.c, x.data i j t * y.data i t k⟩
  else none

/-- Tensor::cat along axis 2.  The library panics on an empty list (none)
and requires all other axes to agree. -/
def cat2 : List (Tensor3 ℝ) → Option (Tensor3 ℝ)
  | [] => none
  | [t] => some t
  | t :: t2 :: ts =>
    match cat2 (t2 :: ts) with
    | none => none
    | some rest =>
      if t.b = rest.b ∧ t.r = rest.r then
        some ⟨t.b, t.r, t.c + rest.c, fun i j k =>
          if k < t.c then t.data i j k else rest.data i j (k - t.c)⟩
      else none

/-- Tensor::ones over the integers (the source builds the mask from an
integer tensor of ones). -/
def onesI (b r c : ℕ) : Tensor3 ℤ := ⟨b, r, c, fun _ _ _ => 1⟩

/-- Tensor::tril with a diagonal offset d: keep the entries with
column - row at most d, zero the rest. -/
def Tensor3.tril (t : Tensor3 ℤ) (d : ℤ) : Tensor3 ℤ :=
  ⟨t.b, t.r, t.c, fun i j k => if (k : ℤ) - (j : ℤ) ≤ d then t.data i j k else 0⟩

/-- Tensor::equal_elem: element-wise comparison with a scalar, producing a
boolean tensor. -/
def Tensor3.equalElem (t : Tensor3 ℤ) (v : ℤ) : Tensor3 Bool :=
  ⟨t.b, t.r, t.c, fun i j k => decide (t.data i j k = v)⟩

/-- Parameters of one linear layer.  The parameter-generation strategy of
the source configuration is an external collaborator, so concrete weight
and bias values are supplied to construction. -/
structure LinParams where
  w : ℕ → ℕ → ℝ
  bias : ℕ → ℝ

/-- burn's Linear layer: weight of shape (dIn, dOut) and a bias, applied to
the last axis of a rank-3 input. -/
structure Linear where
  dIn : ℕ
  dOut : ℕ
  w : ℕ → ℕ → ℝ
  bias : ℕ → ℝ

/-- Linear::forward on a rank-3 input: requires the last axis to equal dIn
(else the underlying matrix product panics, modelled as none). -/
def Linear.forward (l : Linear) (x : Tensor3 ℝ) : Option (Tensor3 ℝ) :=
  if x.c = l.dIn then
    some ⟨x.b, x.r, l.dOut, fun i j k =>
      (∑ t ∈ Finset.range l.dIn, x.data i j t * l.w t k) + l.bias k⟩
  else none

/-- burn's Dropout module.  All properties below concern the inactive
(inference) mode, in which Dropout::forward is the identity. -/
structure Dropout where
  prob : ℝ

/-- Dropout::forward in inference mode: the identity. -/
def Dropout.forward (_ : Dropout) (t : Tensor3 ℝ) : Tensor3 ℝ := t

/-- HeadConfig from the source: batch_size, block_size (context size),
n_embd, head_size, dropout probability. -/
structure HeadConfig where
  batch_size : ℕ
  block_size : ℕ
  n_embd : ℕ
  head_size : ℕ
  dropout : ℝ

/-- A single attention head: query, key and value projections, the
precomputed boolean mask tril, and a dropout module. -/
structure Head where
  query : Linear
  key : Linear
  value : Linear
  tril : Tensor3 Bool
  dropout : Dropout

/-- HeadConfig::init.  The three projections map n_embd to head_size (their
weights come from the external parameter-generation strategy, taken here as
arguments).  The mask is ones([batch_size, block_size, block_size]) sent
through tril(-1) and then compared element-wise with 0. -/
def HeadConfig.init (cfg : HeadConfig) (qp kp vp : LinParams) : Head :=
  { query := ⟨cfg.n_embd, cfg.head_size, qp.w, qp.bias⟩,
    key := ⟨cfg.n_embd, cfg.head_size, kp.w, kp.bias⟩,
    value := ⟨cfg.n_embd, cfg.head_size, vp.w, vp.bias⟩,
    tril := ((onesI cfg.batch_size cfg.block_size cfg.block_size).tril (-1)).equalElem 0,
    dropout := ⟨cfg.dropout⟩ }

/-- The first half of Head::forward, up to and including the mask_fill that
overwrites masked scores with -10000: key and query projections, the
element-wise product of q with the transposed k, division by the square
root of k's last dimension, then mask_fill with the precomputed tril. -/
def Head.maskedScores (h : Head) (x : Tensor3 ℝ) : Option (Tensor3 ℝ) :=
  match h.key.forward x with
  | none => none
  | some k =>
    match h.query.forward x with
    | none => none
    | some q =>
      match q.emul k.transpose2 with
      | none => none
      | some wei =>
        (wei.divScalar (Real.sqrt (k.c : ℝ))).maskFill h.tril (-10000)

/-- The attention-weight matrix of Head::forward: softmax along axis 2 of
the masked scores (before dropout). -/
def Head.attnWeights (h : Head) (x : Tensor3 ℝ) : Option (Tensor3 ℝ) :=
  match h.maskedScores x with
  | none => none
  | some wei => some (softmax2 wei)

/-- Head::forward: dropout on the attention weights, value projection, and
the element-wise product of the weights with the values (again the binary
star operator, not a matrix product). -/
def Head.forward (h : Head) (x : Tensor3 ℝ) : Option (Tensor3 ℝ) :=
  match h.attnWeights x with
  | none => none
  | some wei =>
    match h.value.forward x with
    | none => none
    | some v => (h.dropout.forward wei).emul v

/-- MultiHeadAttentionConfig from the source: n_layer (the number of heads
actually built), n_head (used only for the projection's input dimension),
head_size, n_embd, dropout probability. -/
structure MultiHeadAttentionConfig where
  n_layer : ℕ
  n_head : ℕ
  head_size : ℕ
  n_embd : ℕ
  dropout : ℝ

/-- The multi-head wrapper: output projection, dropout, and the list of
heads. -/
structure MultiHeadAttention where
  proj : Linear
  dropout : Dropout
  heads : List Head

/-- MultiHeadAttentionConfig::init: build n_layer heads from the shared
head configuration (hp supplies each head's externally generated projection
parameters, pp the output projection's), and the output projection from
head_size * n_head to n_embd.  There is no validation step. -/
def MultiHeadAttentionConfig.init (cfg : MultiHeadAttentionConfig)
    (hc : HeadConfig) (hp : ℕ → LinParams × LinParams × LinParams)
    (pp : LinParams) : MultiHeadAttention :=
  { proj := ⟨cfg.head_size * cfg.n_head, cfg.n_embd, pp.w, pp.bias⟩,
    dropout := ⟨cfg.dropout⟩,
    heads := (List.range cfg.n_layer).map
      (fun i => hc.init (hp i).1 (hp i).2.1 (hp i).2.2) }

/-- The loop of MultiHeadAttention::forward that runs every head on the
same input and collects the outputs in order. -/
def collectHeads : List Head → Tensor3 ℝ → Option (List (Tensor3 ℝ))
  | [], _ => some []
  | h :: hs, x =>
    match h.forward x with
    | none => none
    | some t =>
      match collectHeads hs x with
      | none => none
      | some ts => some (t :: ts)

/-- MultiHeadAttention::forward: run the heads, concatenate along axis 2,
apply the output projection, then dropout. -/
def MultiHeadAttention.forward (m : MultiHeadAttention) (x : Tensor3 ℝ) :
    Option (Tensor3 ℝ) :=
  match collectHeads m.heads x with
  | none => none
  | some inputs =>
    match cat2 inputs with
    | none => none
    | some y =>
      match m.proj.forward y with
      | none => none
      | some y2 => some (m.dropout.forward y2)

/-- A state-passing computation over a module of type σ that can fail:
used to make the flow of the module state through a forward call explicit,
so that the absence of mutation is a statement rather than a typing
accident. -/
def St (σ α : Type) : Type := σ → Option (α × σ)

/-- Sequencing of state-passing computations. -/
def stBind {σ α β : Type} (m : St σ α) (f : α → St σ β) : St σ β :=
  fun s =>
    match m s with
    | none => none
    | some p => f p.1 p.2

/-- Returning a pure value without touching the state. -/
def stPure {σ α : Type} (a : α) : St σ α := fun s => some (a, s)

/-- Reading the module state (the shared borrow of self). -/
def stGet {σ : Type} : St σ σ := fun s => some (s, s)

/-- Lifting a fallible pure computation into the state-passing form. -/
def stLift {σ α : Type} (o : Option α) : St σ α :=
  fun s =>
    match o with
    | none => none
    | some a => some (a, s)

/-- Head::forward transcribed statement by statement in state-passing form:
every step reads the module through the shared borrow and no step writes
it. -/
def Head.forwardM (x : Tensor3 ℝ) : St Head (Tensor3 ℝ) :=
  stBind stGet fun self =>
  stBind (stLift (self.key.forward x)) fun k =>
  stBind (stLift (self.query.forward x)) fun q =>
  stBind (stLift (q.emul k.transpose2)) fun wei0 =>
  stBind (stLift ((wei0.divScalar (Real.sqrt (k.c : ℝ))).maskFill self.tril (-10000)))
    fun wei1 =>
  stBind (stPure (softmax2 wei1)) fun wei2 =>
  stBind (stPure (self.dropout.forward wei2)) fun wei3 =>
  stBind (stLift (self.value.forward x)) fun v =>
  stLift (wei3.emul v)

/-- The head loop of MultiHeadAttention::forward in state-passing form. -/
def stMapHeads (x : Tensor3 ℝ) : List Head → St MultiHeadAttention (List (Tensor3 ℝ))
  | [] => stPure []
  | h :: hs =>
    stBind (stLift (h.forward x)) fun t =>
    stBind (stMapHeads x hs) fun ts =>
    stPure (t :: ts)

/-- MultiHeadAttention::forward transcribed in state-passing form. -/
def MultiHeadAttention.forwardM (x : Tensor3 ℝ) : St MultiHeadAttention (Tensor3 ℝ) :=
  stBind stGet fun self =>
  stBind (stMapHeads x self.heads) fun inputs =>
  stBind (stLift (cat2 inputs)) fun y =>
  stBind (stLift (self.proj.forward y)) fun y2 =>
  stPure (self.dropout.forward y2)

/-- Linear parameters that are identically zero. -/
def zeroP : LinParams := ⟨fun _ _ => 0, fun _ => 0⟩

/-- Linear parameters with zero weight and constant bias 1: the layer then
maps every position to the all-ones vector. -/
def onesBiasP : LinParams := ⟨fun _ _ => 0, fun _ => 1⟩

/-- Head configuration with batch_size 1, block_size 2, n_embd 1,
head_size 2 and dropout probability 0. -/
def cfgA : HeadConfig := ⟨1, 2, 1, 2, 0⟩

/-- Head built from cfgA with zero query and key projections and a value
projection that sends every position to the all-ones vector. -/
def headA : Head := cfgA.init zeroP zeroP onesBiasP

/-- Input of shape (1, 2, 1), all zeros: batch 1, time 2 = block_size,
channels 1 = n_embd. -/
def xA : Tensor3 ℝ := ⟨1, 2, 1, fun _ _ _ => 0⟩

/-- Head configuration with batch_size 1, block_size 2, n_embd 1,
head_size 3 and dropout probability 0. -/
def cfgB : HeadConfig := ⟨1, 2, 1, 3, 0⟩

/-- Head built from cfgB with zero projections. -/
def headB : Head := cfgB.init zeroP zeroP zeroP

/-- Input of shape (1, 1, 1), all zeros: time 1, within block_size 2. -/
def xB : Tensor3 ℝ := ⟨1, 1, 1, fun _ _ _ => 0⟩

/-- Multi-head configuration with n_layer 1, n_head 1, head_size 3,
n_embd 1, dropout 0, matching cfgB. -/
def mhaCfgB : MultiHeadAttentionConfig := ⟨1, 1, 3, 1, 0⟩

/-- Multi-head module over one cfgB head with zero parameters. -/
def mhaB : MultiHeadAttention :=
  mhaCfgB.init cfgB (fun _ => (zeroP, zeroP, zeroP)) zeroP

/-- Tiny head configuration, all sizes 1. -/
def cfgS : HeadConfig := ⟨1, 1, 1, 1, 0⟩

/-- Multi-head configuration with n_layer 1 but n_head 2 and head_size 1:
only one head is built while the projection expects input width 2. -/
def mhaCfgC5 : MultiHeadAttentionConfig := ⟨1, 2, 1, 1, 0⟩

/-- Multi-head module built from mhaCfgC5: construction succeeds. -/
def mhaC5 : MultiHeadAttention :=
  mhaCfgC5.init cfgS (fun _ => (zeroP, zeroP, zeroP)) zeroP

/-- Multi-head configuration with n_layer 0. -/
def mhaCfg0 : MultiHeadAttentionConfig := ⟨0, 1, 1, 1, 0⟩

/-- Multi-head module with zero heads: construction succeeds. -/
def mha0 : MultiHeadAttention :=
  mhaCfg0.init cfgS (fun _ => (zeroP, zeroP, zeroP)) zeroP

/-- Input of shape (1, 1, 1), all zeros, for the zero-head module. -/
def x0 : Tensor3 ℝ := ⟨1, 1, 1, fun _ _ _ => 0⟩

end

/-- Helper: softmax of a row whose two entries are equal gives weight one
half to each entry. -/
theorem exp_uniform2 (a : ℝ) : Real.exp a / (Real.exp a + Real.exp a) = 1/2 := by
  rw [div_eq_iff (by positivity)]
  ring

/-- Helper for the frame property: the state-passing head loop equals the
pure head loop and returns the module state unchanged. -/
theorem stMapHeads_eq (x : Tensor3 ℝ) (hs : List Head) (m : MultiHeadAttention) :
    stMapHeads x hs m = (collectHeads hs x).map (fun ts => (ts, m)) := by
  induction hs with
  | nil => rfl
  | cons h t ih =>
    unfold stMapHeads collectHeads
    simp only [stBind, stLift, stPure]
    rcases h.forward x with _ | hd
    · rfl
    · dsimp only
      rw [ih]
      rcases collectHeads t x with _ | ts
      · rfl
      · rfl

/-- C1: the claim says the raw attention scores are the batched matrix
product of the query projection with the transposed key projection,
producing shape (batch, time, time).  The code instead uses the binary star
operator, which is the element-wise product: on the valid input xA of shape
(1, 2, 1) with head_size 3, the projections q and k have shape (1, 2, 3),
the element-wise product of q with the transposed k is undefined (the
library panics on the 2-against-3 broadcast), and Head::forward fails,
while the batched matrix product the claim describes is well defined with
shape (1, 2, 2). -/
theorem c1_scores_elementwise_not_matmul :
    ∃ k q, headB.key.forward xA = some k ∧ headB.query.forward xA = some q ∧
      Tensor3.emul q k.transpose2 = none ∧ Head.forward headB xA = none ∧
      ∃ s, Tensor3.matmul3 q k.transpose2 = some s ∧ s.b = 1 ∧ s.r = 2 ∧ s.c = 2 :=
  ⟨_, _, rfl, rfl, rfl, rfl, _, rfl, rfl, rfl, rfl⟩

/-- C2: the claim says the causal mask is true exactly when j is greater
than i, with the diagonal unmasked.  The mask the code builds (with batch
size 1 and block size 2) has the claimed shape, but it is true exactly when
i is at most j: the diagonal is masked, so mask position (0, 0, 0) is true
although the claim requires it to be false. -/
theorem c2_mask_masks_diagonal :
    headA.tril.b = 1 ∧ headA.tril.r = 2 ∧ headA.tril.c = 2 ∧
    headA.tril.data 0 0 0 = true ∧
    ∀ bq i j, headA.tril.data bq i j = decide (i ≤ j) := by
  refine ⟨rfl, rfl, rfl, rfl, ?_⟩
  intro bq i j
  simp only [headA, cfgA, HeadConfig.init, Tensor3.equalElem, Tensor3.tril, onesI]
  by_cases h : (j : ℤ) - (i : ℤ) ≤ -1
  · rw [if_pos h]
    have hij : ¬ i ≤ j := by omega
    simp [hij]
  · rw [if_neg h]
    have hij : i ≤ j := by omega
    simp [hij]

/-- C3: the claim says the output at query position i is a convex
combination of the value vectors of positions 0..i, so at position 0 it
must equal the value vector of position 0.  On the valid input xA (batch 1,
time 2 = block_size, zero query and key projections, value projection
mapping every position to the all-ones vector) the value vector of position
0 is (1, 1), but Head::forward returns 1/2 in coordinate 0 of position 0:
the code multiplies the weights with the values element-wise instead of
mixing value vectors, and with the diagonal masked the softmax row of
position 0 is uniform, so the output is not a convex combination of the
allowed value vectors. -/
theorem c3_output_not_convex_combination :
    ∃ t v, Head.forward headA xA = some t ∧
      headA.value.forward xA = some v ∧
      t.data 0 0 0 = 1/2 ∧ v.data 0 0 0 = 1 ∧ v.data 0 0 1 = 1 := by
  refine ⟨_, _, rfl, rfl, ?_, ?_, ?_⟩ <;>
    norm_num [softmax2, Tensor3.maskFill, Tensor3.divScalar, Tensor3.emul,
      Tensor3.transpose2, Linear.forward, Tensor3.equalElem, Tensor3.tril, onesI,
      HeadConfig.init, headA, cfgA, xA, zeroP, onesBiasP, bcDim, bIdx,
      Dropout.forward, Head.forward, Head.attnWeights, Head.maskedScores,
      Finset.sum_range_succ, Finset.sum_range_zero, exp_uniform2]

/-- C4: the claim says MultiHeadAttention::forward preserves the input
shape for every valid input with time at most block_size.  The input xB has
shape (1, 1, 1) with time 1 within block_size 2 and channels equal to
n_embd, yet the forward call fails: the element-wise product of the
(1, 1, 3) query with the transposed key broadcasts to (1, 3, 3), and the
precomputed (1, 2, 2) mask, which the code never slices to the input
length, cannot be applied to it. -/
theorem c4_forward_fails_on_short_input :
    xB.b = 1 ∧ xB.r = 1 ∧ xB.c = 1 ∧ xB.r ≤ cfgB.block_size ∧
    MultiHeadAttention.forward mhaB xB = none :=
  ⟨rfl, rfl, rfl, by norm_num [xB, cfgB], rfl⟩

/-- C5 counterexample: with n_layer 1 and n_head 2 at head_size 1 the
construction succeeds and yields one head, while the output projection's
input dimension is 2: head_size times the number of constructed heads
differs from the projection's input dimension, yet nothing failed at
construction, contradicting both directions of the claim. -/
theorem c5_invariant_violated_without_failure :
    mhaC5.heads.length = 1 ∧ mhaC5.proj.dIn = 2 ∧
    mhaCfgC5.head_size * mhaC5.heads.length ≠ mhaC5.proj.dIn := by
  refine ⟨?_, rfl, ?_⟩ <;> simp [mhaC5, mhaCfgC5, MultiHeadAttentionConfig.init]

/-- C5 as amended: construction is total and performs no check; the output
projection's input dimension is defined to be head_size times n_head, and
the number of constructed heads is n_layer, with no consistency requirement
between the two. -/
theorem c5_construction_total_proj_dims :
    ∀ (cfg : MultiHeadAttentionConfig) (hc : HeadConfig)
      (hp : ℕ → LinParams × LinParams × LinParams) (pp : LinParams),
      (cfg.init hc hp pp).proj.dIn = cfg.head_size * cfg.n_head ∧
        (cfg.init hc hp pp).heads.length = cfg.n_layer := by
  intro cfg hc hp pp
  exact ⟨rfl, by simp [MultiHeadAttentionConfig.init]⟩

/-- C6: the claim says the attention weights sum to 1 over the allowed key
positions 0..i and that masked positions contribute about zero.  On the
valid input xA with zero query and key projections, the weights of query
position 0 are (1/2, 1/2): because the diagonal is masked, every entry of
row 0 is overwritten with -10000 and the softmax row is uniform, so the sum
over the allowed position 0..0 is 1/2 rather than 1 and the masked future
position carries probability 1/2 rather than about zero. -/
theorem c6_row_zero_not_row_stochastic :
    ∃ w, Head.attnWeights headA xA = some w ∧
      w.data 0 0 0 = 1/2 ∧ w.data 0 0 1 = 1/2 := by
  refine ⟨_, rfl, ?_, ?_⟩ <;>
    norm_num [softmax2, Tensor3.maskFill, Tensor3.divScalar, Tensor3.emul,
      Tensor3.transpose2, Linear.forward, Tensor3.equalElem, Tensor3.tril, onesI,
      HeadConfig.init, headA, cfgA, xA, zeroP, onesBiasP, bcDim, bIdx,
      Finset.sum_range_succ, Finset.sum_range_zero, exp_uniform2]

/-- C7: the claim says that for every valid input with time 1 the sole
attention weight is exactly 1 and the output is the value vector of that
position.  On the valid time-1 input xB (block_size 2, head_size 3) the
head computes no weight and no output at all: the element-wise product
broadcasts the projections to shape (1, 3, 3) and the unsliced (1, 2, 2)
mask cannot be applied, so the forward call fails. -/
theorem c7_time_one_forward_fails :
    Head.attnWeights headB xB = none ∧ Head.forward headB xB = none :=
  ⟨rfl, rfl⟩

/-- C8 counterexample: the claim's consequence that masked positions
contribute about zero probability after softmax fails in row 0: with the
diagonal masked, every score of row 0 is -10000, and the masked future
position (0, 1) receives probability 1/2. -/
theorem c8_masked_position_half_probability :
    ∃ w, Head.attnWeights headA xA = some w ∧ w.data 0 0 1 = 1/2 := by
  refine ⟨_, rfl, ?_⟩
  norm_num [softmax2, Tensor3.maskFill, Tensor3.divScalar, Tensor3.emul,
    Tensor3.transpose2, Linear.forward, Tensor3.equalElem, Tensor3.tril, onesI,
    HeadConfig.init, headA, cfgA, xA, zeroP, onesBiasP, bcDim, bIdx,
    Finset.sum_range_succ, Finset.sum_range_zero, exp_uniform2]

/-- C8 as amended: whenever the masked-score computation of Head::forward
succeeds, every entry at a position where the precomputed mask is true has
been overwritten with the finite constant -10000 before the softmax is
applied (softmax is applied to exactly this tensor); masked positions then
contribute about zero probability only in rows that also contain an
unmasked position, which row 0 does not. -/
theorem c8_masked_scores_overwritten :
    ∀ (h : Head) (x s : Tensor3 ℝ), h.maskedScores x = some s →
      ∀ i j k,
        h.tril.data (bIdx h.tril.b i) (bIdx h.tril.r j) (bIdx h.tril.c k) = true →
        s.data i j k = -10000 := by
  intro h x s hs i j k hm
  unfold Head.maskedScores at hs
  rcases hk : h.key.forward x with _ | kk
  · simp only [hk] at hs; exact Option.noConfusion hs
  · simp only [hk] at hs
    rcases hq : h.query.forward x with _ | q
    · simp only [hq] at hs; exact Option.noConfusion hs
    · simp only [hq] at hs
      rcases hw : q.emul kk.transpose2 with _ | w
      · simp only [hw] at hs; exact Option.noConfusion hs
      · simp only [hw] at hs
        unfold Tensor3.maskFill at hs
        split at hs
        · simp only [Option.some.injEq] at hs
          subst hs
          simp [hm]
        · exact Option.noConfusion hs

/-- C8 witness: on the concrete head headA and input xA the masked-score
computation succeeds and the entry at the masked position (0, 0, 1) is
-10000. -/
theorem c8_masked_scores_overwritten_witness :
    (Head.maskedScores headA xA).map (fun s => s.data 0 0 1) = some (-10000) := by
  obtain ⟨s, hs⟩ : ∃ s, Head.maskedScores headA xA = some s := ⟨_, rfl⟩
  rw [hs]
  dsimp only [Option.map]
  exact congrArg some (c8_masked_scores_overwritten headA xA s hs 0 0 1 (by decide))

/-- C9: a forward call never mutates the module.  Both forward calls,
transcribed statement by statement in state-passing form in which every
step reads the module through the shared borrow, agree with the pure
forward and return the module state unchanged, on success as well as on
failure (on failure there is no result and no state change at all). -/
theorem c9_forward_frame :
    (∀ (h : Head) (x : Tensor3 ℝ),
        Head.forwardM x h = (Head.forward h x).map (fun t => (t, h))) ∧
    (∀ (m : MultiHeadAttention) (x : Tensor3 ℝ),
        MultiHeadAttention.forwardM x m =
          (MultiHeadAttention.forward m x).map (fun t => (t, m))) := by
  constructor
  · intro h x
    unfold Head.forwardM Head.forward Head.attnWeights Head.maskedScores
    simp only [stBind, stGet, stLift, stPure, Dropout.forward]
    rcases h.key.forward x with _ | k
    · rfl
    · dsimp only
      rcases h.query.forward x with _ | q
      · rfl
      · dsimp only
        rcases q.emul k.transpose2 with _ | w
        · rfl
        · dsimp only
          rcases (w.divScalar (Real.sqrt (k.c : ℝ))).maskFill h.tril (-10000) with _ | w1
          · rfl
          · dsimp only
            rcases h.value.forward x with _ | v
            · rfl
            · dsimp only
              rcases (softmax2 w1).emul v with _ | o
              · rfl
              · rfl
  · intro m x
    unfold MultiHeadAttention.forwardM MultiHeadAttention.forward
    simp only [stBind, stGet, stLift, stPure, Dropout.forward]
    rw [stMapHeads_eq]
    rcases collectHeads m.heads x with _ | inputs
    · rfl
    · dsimp only [Option.map]
      rcases cat2 inputs with _ | y
      · rfl
      · dsimp only
        rcases m.proj.forward y with _ | y2
        · rfl
        · rfl

/-- C10: a multi-head configuration with n_layer 0 constructs successfully
with an empty list of heads, and every subsequent forward call fails,
because the concatenation is applied to the empty list of head outputs. -/
theorem c10_zero_heads_construct_then_forward_fails :
    ∀ (cfg : MultiHeadAttentionConfig) (hc : HeadConfig)
      (hp : ℕ → LinParams × LinParams × LinParams) (pp : LinParams) (x : Tensor3 ℝ),
      cfg.n_layer = 0 →
      (cfg.init hc hp pp).heads = [] ∧
        MultiHeadAttention.forward (cfg.init hc hp pp) x = none := by
  intro cfg hc hp pp x h
  have hh : (cfg.init hc hp pp).heads = [] := by
    simp [MultiHeadAttentionConfig.init, h]
  refine ⟨hh, ?_⟩
  unfold MultiHeadAttention.forward
  rw [hh]
  rfl

/-- C10 witness: the concrete zero-head module mha0 has no heads and its
forward call on the concrete input x0 fails. -/
theorem c10_zero_heads_construct_then_forward_fails_witness :
    mha0.heads = [] ∧ MultiHeadAttention.forward mha0 x0 = none :=
  c10_zero_heads_construct_then_forward_fails mhaCfg0 cfgS
    (fun _ => (zeroP, zeroP, zeroP)) zeroP x0 rfl
